import Mathlib

/-!
Shallow embedding of the soft-delete ("paranoid") record lifecycle of
django_personals (`src/django_personals/models.py`) and of the
Person/satellite schema of `src/example/models.py`.

Modelling conventions:
* UUID primary keys are opaque random values; they are modelled as `Nat`
  parameters supplied at creation.
* `timezone.now()` is an external input; each operation that reads the
  clock takes the current time as an explicit `now : Nat` parameter.
* The acting principal (the `user=None` parameter of `BaseModel.delete`)
  is an opaque foreign identifier, modelled as `Option Nat` with `none`
  for an omitted/anonymous principal.
* Raising `ValidationError` / `DoesNotExist` is modelled with `Except`:
  an `Except.error` result carries the message and produces no mutated
  record, matching the source, where the raise happens before any field
  assignment.
* The source's error strings use an apostrophe in "can't"; the texts here
  elide it as "cannot", which changes no property under study.
-/

/-- The lifecycle fields of `BaseModel` (models.py lines 29-52): a uuid
primary key, `is_trash` with default `False`, a nullable `trashed_by`
foreign key to the user model, and a nullable `trashed_at` timestamp. -/
structure BaseModel where
  id : Nat
  is_trash : Bool
  trashed_by : Option Nat
  trashed_at : Option Nat
deriving DecidableEq

/-- A freshly created row, per the field declarations of models.py lines
35-52: `is_trash` defaults to `False`; `trashed_by` and `trashed_at` are
nullable with no default, hence NULL. -/
def BaseModel.create (id : Nat) : BaseModel :=
  { id := id, is_trash := false, trashed_by := none, trashed_at := none }

/-- `BaseModel.pass_delete_validation` (models.py lines 54-55): the default
per-record-type deletion predicate, always `True`. -/
def pass_delete_validation (_r : BaseModel) : Bool :=
  true

/-- `BaseModel.get_deletion_error_message` (models.py lines 57-58): the
record type's verbose name is substituted into the `%s` format slot. -/
def get_deletion_error_message (verbose_name : String) : String :=
  "E1001: " ++ verbose_name ++ " deletion cannot be performed."

/-- `BaseModel.pass_restore_validation` (models.py lines 78-79): the
default per-record-type restoration predicate is `self.is_trash`. -/
def pass_restore_validation (r : BaseModel) : Bool :=
  r.is_trash

/-- `BaseModel.get_restoration_error_message` (models.py lines 81-82). -/
def get_restoration_error_message (verbose_name : String) : String :=
  "E1002: " ++ verbose_name ++ " restoration cannot be performed."

/-- Result of a successful `BaseModel.delete`: the paranoid branch mutates
and saves the record, the hard branch removes the row via
`super().delete()`. -/
inductive DeleteOutcome
  | softDeleted (r : BaseModel)
  | hardDeleted
deriving DecidableEq

/-- `BaseModel.delete` (models.py lines 63-76). `passValidation` stands for
the per-record-type `pass_delete_validation` method, which subclasses may
override; the base default is `pass_delete_validation`. `verbose_name` is
the record type's verbose name used in the error message. In the source
`user` defaults to `None` and `paranoid` to `False`. -/
def BaseModel.delete (r : BaseModel) (passValidation : BaseModel → Bool)
    (verbose_name : String) (paranoid : Bool) (user : Option Nat)
    (now : Nat) : Except String DeleteOutcome :=
  if !(passValidation r) then
    Except.error (get_deletion_error_message verbose_name)
  else if paranoid then
    Except.ok (DeleteOutcome.softDeleted
      { r with is_trash := true, trashed_by := user, trashed_at := some now })
  else
    Except.ok DeleteOutcome.hardDeleted

/-- `BaseModel.restore` (models.py lines 84-91): fails when the default
restore predicate rejects, otherwise clears the three lifecycle fields and
saves. -/
def BaseModel.restore (r : BaseModel) (verbose_name : String) :
    Except String BaseModel :=
  if !(pass_restore_validation r) then
    Except.error (get_restoration_error_message verbose_name)
  else
    Except.ok { r with is_trash := false, trashed_by := none, trashed_at := none }

/-- One lifecycle step on a record object: a soft delete (with the acting
principal and the current time) or a restore. -/
inductive LifecycleOp
  | softDelete (user : Option Nat) (now : Nat)
  | restore

/-- Apply one lifecycle step with the default validation predicates; a
step whose precondition fails raises, leaving the record unchanged. -/
def applyOp (r : BaseModel) (op : LifecycleOp) : BaseModel :=
  match op with
  | LifecycleOp.softDelete user now =>
    match BaseModel.delete r pass_delete_validation "record" true user now with
    | Except.ok (DeleteOutcome.softDeleted r2) => r2
    | _ => r
  | LifecycleOp.restore =>
    match BaseModel.restore r "record" with
    | Except.ok r2 => r2
    | Except.error _ => r

/-- The spec's three-way lifecycle invariant:
`is_trash = false` iff `trashed_by = none` iff `trashed_at = none`. -/
def lifecycleInv (r : BaseModel) : Bool :=
  ((r.is_trash == false) == (r.trashed_by == none)) &&
  ((r.is_trash == false) == (r.trashed_at == none))

/-- The lifecycle invariant the code actually maintains: `is_trash =
false` iff `trashed_at = none`, and a live record has `trashed_by =
none`; a trashed record's `trashed_by` may be null when the principal was
omitted. -/
def weakInv (r : BaseModel) : Bool :=
  ((r.is_trash == false) == (r.trashed_at == none)) &&
  (!(r.is_trash == false) || (r.trashed_by == none))

/-- `BaseManager.get_queryset` (models.py lines 21-22): the default
queryset filters `is_trash=False`. -/
def BaseManager.get_queryset (rows : List BaseModel) : List BaseModel :=
  rows.filter (fun r => r.is_trash == false)

/-- `BaseManager.get` (models.py lines 24-26): forces `is_trash=False`
into the lookup keyword arguments; Django's `get` raises `DoesNotExist`
(NotFound) when no row matches and `MultipleObjectsReturned` when several
do. -/
def BaseManager.get (rows : List BaseModel) (id : Nat) :
    Except String BaseModel :=
  match rows.filter (fun r => r.id == id && r.is_trash == false) with
  | [r] => Except.ok r
  | [] => Except.error "DoesNotExist"
  | _ => Except.error "MultipleObjectsReturned"

/-- `self.save()` on a fetched row: writes the mutated object back over
every stored row carrying the same primary key. -/
def save_row (rows : List BaseModel) (r : BaseModel) : List BaseModel :=
  rows.map (fun q => if q.id == r.id then r else q)

/-- The paranoid branch of `BaseModel.delete` (models.py lines 70-74) seen
as a table update: mark `r` trashed and save it. -/
def soft_delete_row (rows : List BaseModel) (r : BaseModel)
    (user : Option Nat) (now : Nat) : List BaseModel :=
  save_row rows { r with is_trash := true, trashed_by := user, trashed_at := some now }

/-- `Person` (example/models.py lines 24-27), a concrete record type
extending `PersonAbstract` (models.py lines 237-289), which inherits the
`BaseModel` lifecycle fields and adds the personal-data fields. -/
structure Person where
  id : Nat
  is_trash : Bool
  trashed_by : Option Nat
  trashed_at : Option Nat
  pid : Option String
  gender : String
  date_of_birth : Option Nat
  place_of_birth : Option String
  privacy : String
  nickname : Option String
  about_me : Option String
  religion : Option String
  nation : Option String
deriving DecidableEq

/-- `PersonAddress` (example/models.py lines 43-47): extends
`AddressAbstract` (models.py lines 158-206, a plain `models.Model` with no
lifecycle fields, so Django supplies an auto primary key) and adds the
owning `person` foreign key declared `on_delete=CASCADE`. -/
structure PersonAddress where
  id : Nat
  person : Nat
  is_primary : Bool
  name : Option String
  street : Option String
  city : Option String
  province : Option String
  country : Option String
  zipcode : Option String
  privacy : String
deriving DecidableEq

/-- `Skill` (example/models.py lines 50-54): extends `SkillAbstract`
(models.py lines 450-481), which extends `BaseModel`, and adds the owning
`person` foreign key declared `on_delete=CASCADE`. -/
structure Skill where
  id : Nat
  is_trash : Bool
  trashed_by : Option Nat
  trashed_at : Option Nat
  person : Nat
  name : String
  description : Option String
  level : Int
  privacy : String
deriving DecidableEq

/-- `SkillAbstract.percent` (models.py lines 476-478):
`int(self.level) * 10`. -/
def Skill.percent (s : Skill) : Int :=
  s.level * 10

/-- The tables of the example app that the cascade claims range over. -/
structure Database where
  persons : List Person
  addresses : List PersonAddress
  skills : List Skill
deriving DecidableEq

/-- `Person.pass_delete_validation`: `Person` does not override the base
default (models.py lines 54-55), so the predicate is always `True`. -/
def Person.pass_delete_validation (_p : Person) : Bool :=
  true

/-- The paranoid branch of `BaseModel.delete` applied to a `Person`
object: only the three lifecycle fields of `self` are reassigned before
`self.save()` (models.py lines 70-74). -/
def Person.soft_trashed (p : Person) (user : Option Nat) (now : Nat) :
    Person :=
  { p with is_trash := true, trashed_by := user, trashed_at := some now }

/-- `BaseModel.delete` invoked on a `Person` row, seen as a database
transformation (models.py lines 63-76). The paranoid branch mutates only
that person's lifecycle fields and saves the single row; the hard branch
is `super().delete()`, and the `on_delete=CASCADE` declarations on
`PersonAddress.person` and `Skill.person` (example/models.py lines 43-54)
make Django's deletion collector also remove every satellite row whose
foreign key references the deleted person, in one transaction. -/
def Database.delete_person (db : Database) (p : Person) (paranoid : Bool)
    (user : Option Nat) (now : Nat) : Except String Database :=
  if !(Person.pass_delete_validation p) then
    Except.error (get_deletion_error_message "Person")
  else if paranoid then
    Except.ok { db with persons := db.persons.map (fun q =>
      if q.id == p.id then Person.soft_trashed p user now else q) }
  else
    Except.ok
      { persons := db.persons.filter (fun q => !(q.id == p.id))
      , addresses := db.addresses.filter (fun a => !(a.person == p.id))
      , skills := db.skills.filter (fun s => !(s.person == p.id)) }

/-- Default single-row lookup for `PersonAddress`: `AddressAbstract`
extends the plain `models.Model` (models.py line 158) and declares no
custom manager, so the default manager applies no trash filter; `get`
raises `DoesNotExist` when nothing matches. -/
def address_get (rows : List PersonAddress) (aid : Nat) :
    Except String PersonAddress :=
  match rows.filter (fun a => a.id == aid) with
  | [a] => Except.ok a
  | [] => Except.error "DoesNotExist"
  | _ => Except.error "MultipleObjectsReturned"

/-- A concrete skill row used to witness the percent computation. -/
def skill7 : Skill :=
  { id := 2, is_trash := false, trashed_by := none, trashed_at := none,
    person := 1, name := "lean", description := none, level := 7,
    privacy := "anyone" }

/-- A concrete person row used to witness the cascade behaviour. -/
def person0 : Person :=
  { id := 1, is_trash := false, trashed_by := none, trashed_at := none,
    pid := none, gender := "M", date_of_birth := none,
    place_of_birth := none, privacy := "anyone", nickname := none,
    about_me := none, religion := none, nation := none }

/-- A concrete address row owned by `person0`. -/
def addr0 : PersonAddress :=
  { id := 10, person := 1, is_primary := true, name := some "home",
    street := some "1 Main St", city := none, province := none,
    country := none, zipcode := none, privacy := "anyone" }

/-- A one-person database with one address and one skill satellite. -/
def db0 : Database :=
  { persons := [person0], addresses := [addr0], skills := [skill7] }

/-- Claim C1 fails as stated: soft-deleting a freshly created record with
the acting principal omitted (`user=None`, the parameter's default in the
source) yields a state with `is_trash = true` but `trashed_by = null`,
breaking the three-way invariant. -/
theorem C1_counterexample :
    applyOp (BaseModel.create 1) (LifecycleOp.softDelete none 5) =
      { id := 1, is_trash := true, trashed_by := none, trashed_at := some 5 } ∧
    lifecycleInv
      { id := 1, is_trash := true, trashed_by := none, trashed_at := some 5 } = false := by
  exact ⟨rfl, rfl⟩

theorem weakInv_applyOp (r : BaseModel) (op : LifecycleOp)
    (h : weakInv r = true) : weakInv (applyOp r op) = true := by
  cases op with
  | softDelete user now => rfl
  | restore =>
    cases hr : r.is_trash with
    | true => simp [applyOp, BaseModel.restore, pass_restore_validation, hr, weakInv]
    | false => simpa [applyOp, BaseModel.restore, pass_restore_validation, hr] using h

/-- Claim C1 (amended): starting from a freshly created record, after
every sequence of soft-delete and restore steps the state satisfies
`is_trash = false ⟺ trashed_at = null` and, when live, `trashed_by =
null`; the stronger three-way invariant of the claim does not hold
because a soft delete performed with an omitted principal leaves
`trashed_by` null while `is_trash` is true. -/
theorem C1_weak_invariant_preserved (i : Nat) (ops : List LifecycleOp) :
    weakInv (ops.foldl applyOp (BaseModel.create i)) = true := by
  have step : ∀ (l : List LifecycleOp) (r : BaseModel),
      weakInv r = true → weakInv (l.foldl applyOp r) = true := by
    intro l
    induction l with
    | nil => intro r h; simpa using h
    | cons op t ih =>
      intro r h
      exact ih (applyOp r op) (weakInv_applyOp r op h)
  exact step ops (BaseModel.create i) rfl

/-- Claim C2: restoring a non-trashed record fails with the
RestorationForbidden error (a `ValidationError` carrying the E1002
type-specific message) and leaves the record unchanged; the default
restore precondition is exactly `is_trash`. -/
theorem C2_restore_forbidden (r : BaseModel) (vn : String)
    (h : r.is_trash = false) :
    BaseModel.restore r vn =
      Except.error (get_restoration_error_message vn) ∧
    applyOp r LifecycleOp.restore = r ∧
    pass_restore_validation r = r.is_trash := by
  refine ⟨?_, ?_, rfl⟩
  · simp [BaseModel.restore, pass_restore_validation, h]
  · simp [applyOp, BaseModel.restore, pass_restore_validation, h]

theorem C2_witness :
    (BaseModel.create 7).is_trash = false ∧
    (BaseModel.restore (BaseModel.create 7) "Person" =
       Except.error (get_restoration_error_message "Person") ∧
     applyOp (BaseModel.create 7) LifecycleOp.restore = BaseModel.create 7 ∧
     pass_restore_validation (BaseModel.create 7) =
       (BaseModel.create 7).is_trash) :=
  ⟨rfl, C2_restore_forbidden (BaseModel.create 7) "Person" rfl⟩

/-- Claim C3: soft delete followed by restore always succeeds and returns
the record to the live lifecycle state (`is_trash = false`, `trashed_by =
null`, `trashed_at = null`) with every other field untouched — exactly
the pre-deletion state when the record was live. -/
theorem C3_restore_inverts_soft_delete (r : BaseModel) (vn : String)
    (user : Option Nat) (now : Nat) :
    BaseModel.delete r pass_delete_validation vn true user now =
      Except.ok (DeleteOutcome.softDeleted
        { r with is_trash := true, trashed_by := user, trashed_at := some now }) ∧
    BaseModel.restore
        { r with is_trash := true, trashed_by := user, trashed_at := some now } vn =
      Except.ok { r with is_trash := false, trashed_by := none, trashed_at := none } := by
  exact ⟨rfl, rfl⟩

/-- Claim C8: a freshly created record is live: `is_trash = false`,
`trashed_by = null`, `trashed_at = null`. -/
theorem C8_creation_defaults (i : Nat) :
    (BaseModel.create i).is_trash = false ∧
    (BaseModel.create i).trashed_by = none ∧
    (BaseModel.create i).trashed_at = none :=
  ⟨rfl, rfl, rfl⟩

/-- Claim C10: a soft delete with the acting principal omitted (the
source's `user=None` default) succeeds, setting `is_trash = true` and
`trashed_at` to the current time while `trashed_by` stays null; and a
soft delete of an already-trashed record also succeeds, overwriting
`trashed_by` and `trashed_at` with the new principal and time. -/
theorem C10_soft_delete_null_user_and_repeat (r : BaseModel) (vn : String)
    (now : Nat) (u0 t0 : Option Nat) (user2 : Option Nat) (now2 : Nat) :
    BaseModel.delete r pass_delete_validation vn true none now =
      Except.ok (DeleteOutcome.softDeleted
        { r with is_trash := true, trashed_by := none, trashed_at := some now }) ∧
    BaseModel.delete
        { r with is_trash := true, trashed_by := u0, trashed_at := t0 }
        pass_delete_validation vn true user2 now2 =
      Except.ok (DeleteOutcome.softDeleted
        { r with is_trash := true, trashed_by := user2, trashed_at := some now2 }) :=
  ⟨rfl, rfl⟩

theorem soft_delete_row_no_live_match (rows : List BaseModel)
    (r : BaseModel) (user : Option Nat) (now : Nat) :
    (soft_delete_row rows r user now).filter
      (fun q => q.id == r.id && q.is_trash == false) = [] := by
  rw [List.filter_eq_nil_iff]
  intro q hq
  simp only [soft_delete_row, save_row, List.mem_map] at hq
  rcases hq with ⟨b, _, rfl⟩
  by_cases hid : (b.id == r.id) = true
  · simp [hid]
  · simp [hid]

/-- Claim C4: after a soft delete, the default-scoped listing contains no
row with the trashed record's identifier, and the default-scoped `get` by
identifier fails with `DoesNotExist` (NotFound) — the same error as for a
truly absent row, with no distinct "trashed" signal. -/
theorem C4_default_scope_hides_trashed (rows : List BaseModel)
    (r : BaseModel) (user : Option Nat) (now : Nat) :
    (BaseManager.get_queryset (soft_delete_row rows r user now)).filter
      (fun q => q.id == r.id) = [] ∧
    BaseManager.get (soft_delete_row rows r user now) r.id =
      Except.error "DoesNotExist" := by
  have h := soft_delete_row_no_live_match rows r user now
  constructor
  · rw [BaseManager.get_queryset, List.filter_filter]
    exact h
  · rw [BaseManager.get, h]

/-- Claim C5: when the per-record-type deletion predicate rejects a
record, delete in either mode fails with the DeletionForbidden error
whose message names the record type's verbose name, and no mutated record
is produced; the default predicate accepts every record. -/
theorem C5_deletion_forbidden (r : BaseModel) (pv : BaseModel → Bool)
    (vn : String) (paranoid : Bool) (user : Option Nat) (now : Nat)
    (h : pv r = false) :
    BaseModel.delete r pv vn paranoid user now =
      Except.error (get_deletion_error_message vn) ∧
    get_deletion_error_message vn =
      "E1001: " ++ vn ++ " deletion cannot be performed." ∧
    (∀ s : BaseModel, pass_delete_validation s = true) := by
  refine ⟨?_, rfl, fun s => rfl⟩
  simp [BaseModel.delete, h]

theorem C5_witness :
    ((fun _ : BaseModel => false) (BaseModel.create 3) = false) ∧
    (BaseModel.delete (BaseModel.create 3) (fun _ => false) "Person" true none 0 =
       Except.error (get_deletion_error_message "Person") ∧
     get_deletion_error_message "Person" =
       "E1001: " ++ "Person" ++ " deletion cannot be performed." ∧
     (∀ s : BaseModel, pass_delete_validation s = true)) :=
  ⟨rfl, C5_deletion_forbidden (BaseModel.create 3) (fun _ => false) "Person"
    true none 0 rfl⟩

/-- Claim C9: a skill record with an integer level in the range 0 to 10
exposes `percent = level * 10`; level 7 yields 70, level 0 yields 0 and
level 10 yields 100. -/
theorem C9_skill_percent (s : Skill) (h0 : 0 ≤ s.level)
    (h10 : s.level ≤ 10) :
    s.percent = s.level * 10 ∧
    (s.level = 7 → s.percent = 70) ∧
    (s.level = 0 → s.percent = 0) ∧
    (s.level = 10 → s.percent = 100) := by
  refine ⟨rfl, ?_, ?_, ?_⟩ <;> intro h <;> simp [Skill.percent, h]

theorem C9_witness :
    (0 ≤ skill7.level ∧ skill7.level ≤ 10) ∧
    (skill7.percent = skill7.level * 10 ∧
     (skill7.level = 7 → skill7.percent = 70) ∧
     (skill7.level = 0 → skill7.percent = 0) ∧
     (skill7.level = 10 → skill7.percent = 100)) :=
  ⟨⟨by decide, by decide⟩, C9_skill_percent skill7 (by decide) (by decide)⟩

/-- Claim C6: hard-deleting a `Person` removes the person row and, in the
same step, every satellite row whose owning foreign key references it:
satellite listings by the removed owner's identifier are empty, and
looking up a removed satellite by its own identifier fails with
`DoesNotExist` (NotFound). The hypothesis states that the looked-up
address identifier belongs (if at all) only to addresses owned by the
deleted person, which holds whenever primary keys are unique. -/
theorem C6_hard_delete_cascades (db : Database) (p : Person)
    (user : Option Nat) (now : Nat) (aid : Nat)
    (h : ∀ b ∈ db.addresses, b.id = aid → b.person = p.id) :
    ∃ db2, Database.delete_person db p false user now = Except.ok db2 ∧
      db2.persons.filter (fun q => q.id == p.id) = [] ∧
      db2.addresses.filter (fun a => a.person == p.id) = [] ∧
      db2.skills.filter (fun s => s.person == p.id) = [] ∧
      address_get db2.addresses aid = Except.error "DoesNotExist" := by
  refine ⟨_, rfl, ?_, ?_, ?_, ?_⟩
  · rw [List.filter_filter, List.filter_eq_nil_iff]
    intro a _
    simp
  · rw [List.filter_filter, List.filter_eq_nil_iff]
    intro a _
    simp
  · rw [List.filter_filter, List.filter_eq_nil_iff]
    intro a _
    simp
  · have hnil : (db.addresses.filter (fun a => !(a.person == p.id))).filter
        (fun a => a.id == aid) = [] := by
      rw [List.filter_filter, List.filter_eq_nil_iff]
      intro b hb
      by_cases hid : (b.id == aid) = true
      · have hp : b.person = p.id := h b hb (by simpa using hid)
        simp [hid, hp]
      · simp [hid]
    rw [address_get, hnil]

theorem C6_witness :
    (∀ b ∈ db0.addresses, b.id = 10 → b.person = person0.id) ∧
    (∃ db2, Database.delete_person db0 person0 false none 0 = Except.ok db2 ∧
      db2.persons.filter (fun q => q.id == person0.id) = [] ∧
      db2.addresses.filter (fun a => a.person == person0.id) = [] ∧
      db2.skills.filter (fun s => s.person == person0.id) = [] ∧
      address_get db2.addresses 10 = Except.error "DoesNotExist") :=
  ⟨by decide, C6_hard_delete_cascades db0 person0 none 0 10 (by decide)⟩

/-- Claim C7: soft-deleting a `Person` rewrites only that person's own
lifecycle fields: the address and skill tables are exactly unchanged
(hence every satellite's own `is_trash` flag is too), default-scoped
satellite listings are unaffected, and the person's non-lifecycle fields
are untouched as well. -/
theorem C7_soft_delete_no_cascade (db : Database) (p : Person)
    (user : Option Nat) (now : Nat) :
    ∃ db2, Database.delete_person db p true user now = Except.ok db2 ∧
      db2.addresses = db.addresses ∧
      db2.skills = db.skills ∧
      db2.skills.filter (fun s => s.is_trash == false) =
        db.skills.filter (fun s => s.is_trash == false) ∧
      (Person.soft_trashed p user now).id = p.id ∧
      (Person.soft_trashed p user now).pid = p.pid ∧
      (Person.soft_trashed p user now).gender = p.gender ∧
      (Person.soft_trashed p user now).date_of_birth = p.date_of_birth ∧
      (Person.soft_trashed p user now).place_of_birth = p.place_of_birth ∧
      (Person.soft_trashed p user now).privacy = p.privacy ∧
      (Person.soft_trashed p user now).nickname = p.nickname ∧
      (Person.soft_trashed p user now).about_me = p.about_me ∧
      (Person.soft_trashed p user now).religion = p.religion ∧
      (Person.soft_trashed p user now).nation = p.nation ∧
      (Person.soft_trashed p user now).is_trash = true :=
  ⟨_, rfl, rfl, rfl, rfl, rfl, rfl, rfl, rfl, rfl, rfl, rfl, rfl, rfl, rfl, rfl⟩
